import Mathlib

/-!
Verification of the PPTX-to-HTML conversion pipeline (`src/util/pptx_to_html.py`).

The Python source is shallowly embedded below:
* the dictionaries produced by `extract_slide_data` become the structures
  `ShapeData` / `ParagraphData` / `RunData`; the JSON round trip used to ship
  them to worker processes is value-preserving and is modelled as the identity
  (Python `None` becomes `Option.none`, base64 encode/decode of the image
  bytes is a bijection and is modelled as the identity on the byte list);
* the float arithmetic of the layout normalizer, `(value / ref) * 100`
  followed by `:.2f` formatting, is modelled as exact fraction arithmetic on
  integers: `fmt2Frac n d` renders the rational `n / d` in fixed point with
  exactly two digits after the point, rounding half to even and keeping the
  sign of a negative value even when it rounds to zero, as CPython does;
* the filesystem and PIL are modelled by `ImgEnv`: `save` stands for
  `Image.open` plus `img.save`, returning the written PNG bytes or an error
  that is either an `OSError` (the only class the source catches) or any
  other uncaught Python exception;
* `multiprocessing.Pool.starmap` is modelled twice: `starmapCatch` captures
  the error behaviour of the `try/except` around it (any task exception makes
  the whole call raise, and the handler replaces the result list by `[]`),
  and `fillBuf`/`readOut` model its ordering contract (each worker finishes
  at an arbitrary time and deposits its result in an index-keyed buffer that
  is read out in index order).
-/

/-- Python truthiness-aware rendering of an optional string inside an
f-string: `None` prints as the literal text `None`. -/
def pyOptStr : Option String → String
  | none => "None"
  | some s => s

/-- Rendering of an optional integer inside an f-string (`None` or the int). -/
def pyOptIntStr : Option Int → String
  | none => "None"
  | some n => toString n

/-- Rendering of a float inside an f-string, restricted to the values the
claims exercise (integral floats print with a trailing `.0`, as in Python). -/
def pyFloatStr (q : ℚ) : String :=
  if q.den = 1 then toString q.num ++ ".0" else toString q.num ++ "/" ++ toString q.den

/-- Lowercase hex digit, as produced by Python `{:02x}`. -/
def hexDigit (n : Nat) : Char :=
  if n < 10 then Char.ofNat (48 + n) else Char.ofNat (87 + n)

/-- Python `{:02x}` on a byte value: two lowercase hex digits. -/
def byteHex (n : Nat) : String :=
  String.mk [hexDigit (n / 16 % 16), hexDigit (n % 16)]

/-- Embeds `rgb_to_hex` (`pptx_to_html.py` lines 42-45): an RGB triple
rendered as a lowercase `#rrggbb` string via `#{:02x}{:02x}{:02x}`. -/
def rgb_to_hex (rgb : Nat × Nat × Nat) : String :=
  "#" ++ byteHex rgb.1 ++ byteHex rgb.2.1 ++ byteHex rgb.2.2

/-- Two decimal digits with a leading zero: the fractional part of `:.2f`. -/
def twoDigits (r : Nat) : String :=
  (if r < 10 then "0" else "") ++ toString r

/-- Round the fraction `n / d` (with `d > 0`) to the nearest integer, ties to
even — the rounding CPython applies when formatting a float. -/
def roundHalfEvenFrac (n d : Int) : Int :=
  let f := n.fdiv d
  let m := n - f * d
  if 2 * m < d then f else if d < 2 * m then f + 1 else if f % 2 = 0 then f else f + 1

/-- Embeds Python `f"{x:.2f}"` applied to the exact value `n / d` (`d > 0`):
fixed-point rendering with exactly two digits after the decimal point; a
negative value keeps its minus sign even when it rounds to zero. -/
def fmt2Frac (n d : Int) : String :=
  let h := roundHalfEvenFrac (100 * n) d
  let sign := if n < 0 then "-" else ""
  let a := h.natAbs
  sign ++ toString (a / 100) ++ "." ++ twoDigits (a % 100)

/-- Embeds the per-axis computation `f"{(value / ref) * 100:.2f}%"` used for
left/top/width/height in `process_shape_data` (lines 85-88): the exact value
of `(value / ref) * 100` is the fraction `(value * 100) / ref`. -/
def pctStr (value ref : Int) : String :=
  fmt2Frac (value * 100) ref ++ "%"

/-- `MSO_SHAPE_TYPE.PICTURE` (serialized over JSON as its integer value). -/
def MSO_SHAPE_TYPE_PICTURE : Int := 13

/-- `MSO_FILL.SOLID`. -/
def MSO_FILL_SOLID : Int := 1

/-- `MSO_FILL.BACKGROUND`. -/
def MSO_FILL_BACKGROUND : Int := 5

/-- One run dictionary as built by `extract_text_frame` (lines 60-68) and
shipped through JSON to the rendering worker. -/
structure RunData where
  text : String
  font_name : Option String
  font_size : Option ℚ
  bold : Option Bool
  italic : Option Bool
  color : Option String
  hyperlink : Option String
deriving DecidableEq, Repr

/-- One paragraph dictionary (`extract_text_frame`, lines 56-71). -/
structure ParagraphData where
  alignment : Option Int
  is_title : Bool
  runs : List RunData
deriving DecidableEq, Repr

/-- One shape dictionary as built by `extract_slide_data` (lines 26-40).
`image` holds the raw picture bytes; the base64/JSON transport between the
extractor and the worker is modelled as the identity. -/
structure ShapeData where
  shape_type : Int
  left : Int
  top : Int
  width : Int
  height : Int
  has_text_frame : Bool
  text_frame : Option (List ParagraphData)
  image : Option (List Nat)
  image_format : Option String
  fill_color : Option String
deriving DecidableEq, Repr

/-- The `common_style` string of `process_shape_data` (line 90). -/
def commonStyleOf (s : ShapeData) : String :=
  "left:" ++ pctStr s.left 9144000 ++ ";top:" ++ pctStr s.top 6858000 ++
    ";width:" ++ pctStr s.width 9144000 ++ ";height:" ++ pctStr s.height 6858000 ++ ";"

/-- The `font-size` declaration of a run (line 116): Python truthiness means
a `None` or zero size emits nothing. -/
def sizeDecl (r : RunData) : String :=
  match r.font_size with
  | some q => if q = 0 then "" else "font-size: " ++ pyFloatStr q ++ "pt; "
  | none => ""

/-- The `font-weight` declaration of a run (line 117): emitted only when
`run['bold']` is truthy, i.e. `True` (not `None`, not `False`). -/
def boldDecl (r : RunData) : String :=
  if r.bold = some true then "font-weight: bold; " else ""

/-- The `font-style` declaration of a run (line 118). -/
def italicDecl (r : RunData) : String :=
  if r.italic = some true then "font-style: italic; " else ""

/-- The `color` declaration of a run (line 119): emitted when `run['color']`
is truthy (a non-`None`, non-empty string). -/
def colorDecl (r : RunData) : String :=
  match r.color with
  | some c => if c = "" then "" else "color: " ++ c ++ "; "
  | none => ""

/-- The declarations appended after the `font-family` one. -/
def styleTail (r : RunData) : String :=
  sizeDecl r ++ (boldDecl r ++ (italicDecl r ++ colorDecl r))

/-- The `run_style` string of `process_shape_data` (lines 115-119). The
`font-family` declaration is unconditional; a `None` font name is formatted
by the f-string as the text `None`. -/
def runStyle (r : RunData) : String :=
  "font-family: " ++ pyOptStr r.font_name ++ "; " ++ styleTail r

/-- The `<span>` fragment of a run without a (truthy) hyperlink (line 125). -/
def spanOf (r : RunData) : String :=
  "<span style=\x27" ++ runStyle r ++ "\x27>" ++ r.text ++ "</span>"

/-- One run's HTML (lines 122-125): `if run.get('hyperlink'):` upgrades the
span to an anchor; a `None` or empty address is falsy. -/
def runHtml (r : RunData) : String :=
  match r.hyperlink with
  | some url =>
      if url = "" then spanOf r
      else "<a href=\x27" ++ url ++ "\x27 style=\x27" ++ runStyle r ++ "\x27>" ++ r.text ++ "</a>"
  | none => spanOf r

/-- The `para_style` string (line 112). -/
def paraStyleOf (p : ParagraphData) : String :=
  "text-align: " ++ pyOptIntStr p.alignment ++ ";"

/-- One paragraph's HTML (lines 113-131): runs concatenated in order, then
wrapped in `<h1>` when `paragraph.get('is_title')` is truthy, else `<p>`. -/
def paraHtml (p : ParagraphData) : String :=
  if p.is_title then
    "<h1 class=\x27title\x27 style=\x27" ++ paraStyleOf p ++ "\x27>" ++
      String.join (p.runs.map runHtml) ++ "</h1>"
  else
    "<p class=\x27paragraph\x27 style=\x27" ++ paraStyleOf p ++ "\x27>" ++
      String.join (p.runs.map runHtml) ++ "</p>"

/-- The text-frame branch of `process_shape_data` (lines 108-135). The
background colour is `f"background-color: {shape_data.get('fill_color', 'transparent')};"`:
`extract_slide_data` always stores the `fill_color` key, so the
`'transparent'` default of `.get` is dead and the stored value — possibly
`None`, which the f-string renders as the text `None` — is used. When
`has_text_frame` is true the extractor always stored a list, so the iteration
is modelled over `getD []`. -/
def textDivOf (s : ShapeData) : String :=
  "<div class=\x27absolute flex flex-col items-start justify-start\x27 style=\x27" ++
    commonStyleOf s ++ ("background-color: " ++ pyOptStr s.fill_color ++ ";") ++ "\x27>" ++
    String.join (((s.text_frame).getD []).map paraHtml) ++ "</div>"

/-- A Python exception escaping (or caught inside) `process_shape_data`:
`os` is an `OSError` — the only class line 103 catches — and `other` is any
other exception, which propagates out of the worker. -/
inductive PErr where
  | os (msg : String)
  | other (msg : String)
deriving DecidableEq, Repr

/-- Model of PIL plus the filesystem: `save bytes` stands for
`Image.open(BytesIO(bytes))` followed by `img.save(path, "PNG")`, returning
the PNG bytes that end up on disk, or the exception either step raised. -/
structure ImgEnv where
  save : List Nat → Except PErr (List Nat)

/-- The deterministic image filename (line 94):
`f"slide_{slide_index + 1}_image_{shape_index + 1}.png"`. -/
def imageFilenameOf (slideIndex shapeIndex : Nat) : String :=
  "slide_" ++ toString (slideIndex + 1) ++ "_image_" ++ toString (shapeIndex + 1) ++ ".png"

/-- The `<img>` fragment (line 107). -/
def imgTagOf (s : ShapeData) (slideIndex shapeIndex : Nat) : String :=
  "<img src=\x27images/" ++ imageFilenameOf slideIndex shapeIndex ++
    "\x27 class=\x27absolute object-contain\x27 style=\x27" ++ commonStyleOf s ++ "\x27/>"

/-- The placeholder fragment returned when the image write raises an
`OSError` (line 105). -/
def placeholderOf (slideIndex shapeIndex : Nat) : String :=
  "<p>[Image processing failed for slide " ++ toString (slideIndex + 1) ++
    ", shape " ++ toString (shapeIndex + 1) ++ "]</p>"

/-- Embeds `process_shape_data` (lines 83-136). Returns the HTML fragment
together with the list of files written, or the uncaught exception. The
dispatch order of the source is kept: the `PICTURE` test comes first, the
text-frame test second, and anything else renders the empty string. -/
def processShapeData (env : ImgEnv) (imageDir : String) (slideIndex : Nat)
    (ignoreImages : Bool) (shapeIndex : Nat) (s : ShapeData) :
    Except PErr (String × List (String × List Nat)) :=
  if s.shape_type = MSO_SHAPE_TYPE_PICTURE then
    if ignoreImages then .ok (imgTagOf s slideIndex shapeIndex, [])
    else
      match s.image with
      | none => .error (.other "TypeError: a bytes-like object is required")
      | some bytes =>
          match env.save bytes with
          | .ok png =>
              .ok (imgTagOf s slideIndex shapeIndex,
                   [(imageDir ++ "/" ++ imageFilenameOf slideIndex shapeIndex, png)])
          | .error (.os _) => .ok (placeholderOf slideIndex shapeIndex, [])
          | .error (.other msg) => .error (.other msg)
  else if s.has_text_frame then .ok (textDivOf s, [])
  else .ok ("", [])

/-- The body of `process_slide` (lines 78-81): shapes are rendered in order
with their enumeration index and the fragments joined; the first uncaught
exception aborts the slide's task. -/
def processShapes (env : ImgEnv) (imageDir : String) (slideIndex : Nat)
    (ignoreImages : Bool) : Nat → List ShapeData →
    Except PErr (String × List (String × List Nat))
  | _, [] => .ok ("", [])
  | i, s :: rest =>
      match processShapeData env imageDir slideIndex ignoreImages i s with
      | .error e => .error e
      | .ok (h, w) =>
          match processShapes env imageDir slideIndex ignoreImages (i + 1) rest with
          | .error e => .error e
          | .ok (hs, ws) => .ok (h ++ hs, w ++ ws)

/-- `process_slide`, projected on the HTML it returns. -/
def processSlideHtml (env : ImgEnv) (imageDir : String) (slideIndex : Nat)
    (ignoreImages : Bool) (shapes : List ShapeData) : Except PErr String :=
  Except.map Prod.fst (processShapes env imageDir slideIndex ignoreImages 0 shapes)

/-- The task list handed to `pool.starmap` (line 176): one `process_slide`
call per slide, carrying the slide's index. -/
def tasksFrom (env : ImgEnv) (imageDir : String) (ignoreImages : Bool) :
    Nat → List (List ShapeData) → List (Except PErr String)
  | _, [] => []
  | i, shapes :: rest =>
      processSlideHtml env imageDir i ignoreImages shapes ::
        tasksFrom env imageDir ignoreImages (i + 1) rest

/-- Whether a task completed without an uncaught exception. -/
def isOkE : Except PErr String → Bool
  | .ok _ => true
  | .error _ => false

/-- The value of a completed task (the `error` case is never read under an
all-ok task list). -/
def getOkE : Except PErr String → String
  | .ok s => s
  | .error _ => ""

/-- Embeds lines 172-182: `pool.starmap` raises as soon as any task raised,
and the `except Exception` handler then sets `slide_contents = []`;
otherwise the results come back in task (slide-index) order. -/
def starmapCatch (tasks : List (Except PErr String)) : List String :=
  if tasks.all isOkE then tasks.map getOkE else []

/-- The `slide_contents` list of `pptx_to_html`. -/
def pipelineContents (env : ImgEnv) (imageDir : String) (ignoreImages : Bool)
    (slides : List (List ShapeData)) : List String :=
  starmapCatch (tasksFrom env imageDir ignoreImages 0 slides)

/-- The fixed page template (lines 146-166; braces written as escapes). -/
def htmlHeader : String :=
  "\n    <html>\n    <head>\n        <meta name=\"viewport\" content=\"width=device-width, initial-scale=1.0\">\n        <script src=\"https://cdn.tailwindcss.com\"></script>\n        <style>\n            body \x7b margin: 0; padding: 0; \x7d\n            .slide-container \x7b max-width: 1024px; margin: 0 auto; padding: 2rem; \x7d\n            .slide \x7b position: relative; width: 100%; padding-top: 75%; margin-bottom: 2rem; \x7d\n            .slide-content \x7b position: absolute; top: 0; left: 0; right: 0; bottom: 0; \x7d\n            .absolute \x7b position: absolute; \x7d\n            .paragraph \x7b margin-bottom: 0.5em; \x7d\n            .slide-content > div \x7b max-height: none !important; overflow: visible !important; \x7d\n            .title \x7b font-size: 1.15em; font-weight: bold; margin-bottom: 0.5em; \x7d\n            a \x7b text-decoration: underline; color: blue; \x7d\n            a:hover \x7b text-decoration: none; \x7d\n        </style>\n    </head>\n    <body class=\"bg-gray-100\">\n    <div class=\"slide-container\">\n    "

/-- One slide's wrapper div (line 184). -/
def wrapSlide (content : String) : String :=
  "<div class=\"slide bg-white shadow-lg rounded-lg\"><div class=\"slide-content\">" ++
    content ++ "</div></div>"

/-- The full assembled document written by `pptx_to_html` (lines 184-185). -/
def assembleFrom (env : ImgEnv) (imageDir : String) (ignoreImages : Bool)
    (slides : List (List ShapeData)) : String :=
  htmlHeader ++
    String.join ((pipelineContents env imageDir ignoreImages slides).map wrapSlide) ++
    "</div></body></html>"

/-- The index-keyed results buffer of the `Pool.starmap` ordering model: the
workers finish in the order given by `order` (a completion sequence of task
indices) and each deposits its result under its own index. Later completions
never displace an already stored result of the same index (every write for
index `j` carries the same value `res j`). -/
def fillBuf (res : Nat → String) : List Nat → Nat → Option String
  | [], _ => none
  | j :: rest, i => if i = j then some (res j) else fillBuf res rest i

/-- Reading the buffer back in task-index order, as `starmap` returns it. -/
def readOut (n : Nat) (buf : Nat → Option String) : List String :=
  (List.range n).map fun i => (buf i).getD ""

/-- The HTML produced by the task of slide `i` (on a run where it completes). -/
def slideHtmlAt (env : ImgEnv) (imageDir : String) (ignoreImages : Bool)
    (slides : List (List ShapeData)) (i : Nat) : String :=
  getOkE (processSlideHtml env imageDir i ignoreImages (slides.getD i []))

/-- The slide contents as reassembled from a pool run whose workers completed
in the order `order`. -/
def pipelineScheduled (env : ImgEnv) (imageDir : String) (ignoreImages : Bool)
    (slides : List (List ShapeData)) (order : List Nat) : List String :=
  readOut slides.length (fillBuf (slideHtmlAt env imageDir ignoreImages slides) order)

/-- One live shape of the external document model, as seen by
`extract_slide_data` (lines 25-40). `textFrameRaw` is the traversal of
`shape.text_frame.paragraphs` performed by `extract_text_frame`: it either
yields the paragraph records or raises some exception (malformed formatting
metadata). `fillType` is `shape.fill.type` and `foreColorRgb` the explicit
RGB of `shape.fill.fore_color`, when one is set. -/
structure RawShape where
  shape_type : Int
  left : Int
  top : Int
  width : Int
  height : Int
  has_text_frame : Bool
  textFrameRaw : Except String (List ParagraphData)
  imageBlob : Option (List Nat)
  imageExt : Option String
  hasFill : Bool
  fillType : Option Int
  foreColorRgb : Option (Nat × Nat × Nat)
deriving Repr

/-- Embeds `get_fill_color` (lines 15-23): a solid fill with a truthy
explicit RGB yields its lowercase hex string, a background fill yields the
literal `transparent`, and every other case falls through to `None`. -/
def get_fill_color (s : RawShape) : Option String :=
  if s.hasFill then
    if s.fillType = some MSO_FILL_SOLID then
      match s.foreColorRgb with
      | some rgb => some (rgb_to_hex rgb)
      | none => none
    else if s.fillType = some MSO_FILL_BACKGROUND then some "transparent"
    else none
  else none

/-- Embeds `extract_text_frame` (lines 47-76): the whole paragraph traversal
is wrapped in `try/except Exception`, so a raising traversal is logged and
replaced by the empty list. -/
def extract_text_frame (raw : Except String (List ParagraphData)) : List ParagraphData :=
  match raw with
  | .ok ps => ps
  | .error _ => []

/-- One entry of the `extract_slide_data` list comprehension (lines 26-40);
the base64 encoding of `shape.image.blob` is modelled as the identity on the
byte list. -/
def extractShapeRecord (s : RawShape) : ShapeData :=
  { shape_type := s.shape_type
    left := s.left
    top := s.top
    width := s.width
    height := s.height
    has_text_frame := s.has_text_frame
    text_frame := if s.has_text_frame then some (extract_text_frame s.textFrameRaw) else none
    image := if s.shape_type = MSO_SHAPE_TYPE_PICTURE then s.imageBlob else none
    image_format := if s.shape_type = MSO_SHAPE_TYPE_PICTURE then s.imageExt else none
    fill_color := get_fill_color s }

/-- Embeds `extract_slide_data` (lines 25-40). -/
def extract_slide_data (shapes : List RawShape) : List ShapeData :=
  shapes.map extractShapeRecord

/-- Decidable substring test on character lists (the needle occurs as a
contiguous block). -/
def listHas : List Char → List Char → Bool
  | needle, [] => needle.isEmpty
  | needle, c :: t => needle.isPrefixOf (c :: t) || listHas needle t

/-- Decidable substring test on strings. -/
def strContainsB (hay needle : String) : Bool :=
  listHas needle.toList hay.toList

/-- A PIL/filesystem model where every image decodes and writes cleanly. -/
def envOk : ImgEnv := ⟨fun b => .ok b⟩

/-- A PIL model where decoding raises an `OSError`
(e.g. `PIL.UnidentifiedImageError`), the class line 103 catches. -/
def envOsFail : ImgEnv := ⟨fun _ => .error (.os "cannot identify image file")⟩

/-- A PIL model where saving raises an exception that is not an `OSError`
(e.g. a `ValueError`), which line 103 does not catch. -/
def envBadSave : ImgEnv := ⟨fun _ => .error (.other "ValueError: unknown file extension")⟩

/-- A bold title run. -/
def demoRun : RunData :=
  { text := "Hello", font_name := some "Arial", font_size := none, bold := some true,
    italic := some false, color := none, hyperlink := none }

/-- A title paragraph holding `demoRun`. -/
def demoPara : ParagraphData :=
  { alignment := some 1, is_title := true, runs := [demoRun] }

/-- A full-canvas text shape with a solid fill colour. -/
def demoTextShape : ShapeData :=
  { shape_type := 17, left := 0, top := 0, width := 9144000, height := 6858000,
    has_text_frame := true, text_frame := some [demoPara], image := none,
    image_format := none, fill_color := some "#112233" }

/-- A text shape whose fill was not recognized by `get_fill_color`
(gradient/pattern/no fill), so `fill_color` is `None`. -/
def noFillTextShape : ShapeData :=
  { shape_type := 17, left := 0, top := 0, width := 9144000, height := 6858000,
    has_text_frame := true, text_frame := some [], image := none,
    image_format := none, fill_color := none }

/-- A picture shape with four bytes of image data. -/
def demoPicShape : ShapeData :=
  { shape_type := 13, left := 0, top := 0, width := 4572000, height := 3429000,
    has_text_frame := false, text_frame := none, image := some [137, 80, 78, 71],
    image_format := some "png", fill_color := none }

/-- A live shape with a solid explicit-RGB fill. -/
def rawSolid : RawShape :=
  { shape_type := 1, left := 0, top := 0, width := 0, height := 0,
    has_text_frame := false, textFrameRaw := .ok [], imageBlob := none,
    imageExt := none, hasFill := true, fillType := some MSO_FILL_SOLID,
    foreColorRgb := some (0x25, 0xff, 0x00) }

/-- A live shape with an explicit background fill. -/
def rawBackground : RawShape :=
  { rawSolid with fillType := some MSO_FILL_BACKGROUND, foreColorRgb := none }

/-- A live shape with a gradient fill (`MSO_FILL.GRADIENT = 3`), which
`get_fill_color` does not recognize. -/
def rawGradient : RawShape :=
  { rawSolid with fillType := some 3, foreColorRgb := none }

/-- C1. For every shape, the rendered position box is computed per axis as
`percent = (value / referenceAxisSize) * 100`, reference 9144000 for
left/width and 6858000 for top/height, formatted with exactly two decimal
digits and a `%` suffix, with no clamping: out-of-canvas values yield
negative or over-100% strings, and the boundary inputs give
`left = 0 → "0.00%"` and `left = 9144000 → "100.00%"`. -/
theorem C1_layout_percent_box :
    pctStr 0 9144000 = "0.00%" ∧
    pctStr 9144000 9144000 = "100.00%" ∧
    pctStr (-457200) 9144000 = "-5.00%" ∧
    pctStr 13716000 9144000 = "150.00%" ∧
    pctStr 10287000 6858000 = "150.00%" ∧
    pctStr (-400) 6858000 = "-0.01%" ∧
    ∀ s : ShapeData, commonStyleOf s =
      "left:" ++ pctStr s.left 9144000 ++ ";top:" ++ pctStr s.top 6858000 ++
        ";width:" ++ pctStr s.width 9144000 ++ ";height:" ++ pctStr s.height 6858000 ++ ";" :=
  ⟨by decide, by decide, by decide, by decide, by decide, by decide, fun _ => rfl⟩

set_option maxRecDepth 8000 in
/-- C2. Fill rendering, evaluated on the code: a solid fill with an explicit
RGB resolves to the lowercase hex string and renders as its
`background-color`; a `BACKGROUND` fill renders
`background-color: transparent;`; but a shape with no recognized fill has
`fill_color = None` and — because `extract_slide_data` always stores the
`fill_color` key, so the `'transparent'` default of
`shape_data.get('fill_color', 'transparent')` never applies — renders the
literal `background-color: None;`, not `background-color: transparent;`. -/
theorem C2_fill_color_resolution_and_rendering :
    get_fill_color rawSolid = some "#25ff00" ∧
    get_fill_color rawBackground = some "transparent" ∧
    get_fill_color rawGradient = none ∧
    textDivOf { demoTextShape with fill_color := some "#25ff00" } =
      "<div class=\x27absolute flex flex-col items-start justify-start\x27 style=\x27left:0.00%;top:0.00%;width:100.00%;height:100.00%;background-color: #25ff00;\x27><h1 class=\x27title\x27 style=\x27text-align: 1;\x27><span style=\x27font-family: Arial; font-weight: bold; \x27>Hello</span></h1></div>" ∧
    textDivOf { demoTextShape with fill_color := some "transparent" } =
      "<div class=\x27absolute flex flex-col items-start justify-start\x27 style=\x27left:0.00%;top:0.00%;width:100.00%;height:100.00%;background-color: transparent;\x27><h1 class=\x27title\x27 style=\x27text-align: 1;\x27><span style=\x27font-family: Arial; font-weight: bold; \x27>Hello</span></h1></div>" ∧
    processShapeData envOk "images" 0 false 0 noFillTextShape =
      .ok ("<div class=\x27absolute flex flex-col items-start justify-start\x27 style=\x27left:0.00%;top:0.00%;width:100.00%;height:100.00%;background-color: None;\x27></div>", []) ∧
    strContainsB (textDivOf noFillTextShape) "background-color: transparent;" = false :=
  ⟨by decide, by decide, by decide, by decide, by decide, rfl, by decide⟩

set_option maxRecDepth 8000 in
/-- C3 counterexample. The claim — an uncaught exception in one slide's task
is isolated to that slide, which gets an empty fragment while the remaining
slides still appear — is false on the code: with slide 0 a perfectly
renderable text slide and slide 1 a picture whose save raises a
non-`OSError`, the pipeline handler (lines 180-182) replaces the whole
result list by `[]`, so the assembled document contains no slide fragments
at all; in particular slide 0's fragment (nonempty, and renderable on its
own) is gone. -/
theorem C3_counterexample_failure_not_isolated :
    pipelineContents envBadSave "images" false [[demoTextShape], [demoPicShape]] = [] ∧
    assembleFrom envBadSave "images" false [[demoTextShape], [demoPicShape]] =
      htmlHeader ++ "</div></body></html>" ∧
    processSlideHtml envBadSave "images" 0 false [demoTextShape] =
      .ok (textDivOf demoTextShape) ∧
    textDivOf demoTextShape ≠ "" :=
  ⟨by decide, by decide, rfl, by decide⟩

/-- C3 as amended: an uncaught exception in any slide's rendering task is
caught by the pipeline-level `except Exception` handler, which logs it and
replaces the entire `slide_contents` list by `[]` — the failure is not
isolated, and the assembled document contains no slide fragment at all. -/
theorem C3_amended_task_failure_empties_document :
    ∀ (env : ImgEnv) (imageDir : String) (ignoreImages : Bool)
      (slides : List (List ShapeData)),
      (tasksFrom env imageDir ignoreImages 0 slides).all isOkE = false →
      pipelineContents env imageDir ignoreImages slides = [] ∧
      assembleFrom env imageDir ignoreImages slides =
        htmlHeader ++ "</div></body></html>" := by
  intro env d ig slides h
  have hc : pipelineContents env d ig slides = [] := by
    simp [pipelineContents, starmapCatch, h]
  refine ⟨hc, ?_⟩
  unfold assembleFrom
  rw [hc]
  simp [String.join]

/-- Witness for the amended C3 theorem at a concrete one-slide document. -/
theorem C3_amended_witness :
    pipelineContents envBadSave "images" false [[demoPicShape]] = [] ∧
    assembleFrom envBadSave "images" false [[demoPicShape]] =
      htmlHeader ++ "</div></body></html>" :=
  C3_amended_task_failure_empties_document envBadSave "images" false
    [[demoPicShape]] (by decide)

theorem fillBuf_of_mem (res : Nat → String) :
    ∀ (order : List Nat) (i : Nat), i ∈ order → fillBuf res order i = some (res i) := by
  intro order
  induction order with
  | nil => intro i h; cases h
  | cons j rest ih =>
      intro i h
      by_cases hij : i = j
      · subst hij; simp [fillBuf]
      · rcases List.mem_cons.mp h with h1 | h2
        · exact absurd h1 hij
        · simp [fillBuf, hij, ih i h2]

/-- C4. Whatever order the pool workers complete in — any completion
sequence `order` that eventually delivers every slide index — the slide
contents are reassembled from the index-keyed buffer in original zero-based
slide index order: the result equals the in-index-order list of per-slide
fragments. -/
theorem C4_index_stable_reassembly :
    ∀ (env : ImgEnv) (imageDir : String) (ignoreImages : Bool)
      (slides : List (List ShapeData)) (order : List Nat),
      (∀ i, i < slides.length → i ∈ order) →
      pipelineScheduled env imageDir ignoreImages slides order =
        (List.range slides.length).map (slideHtmlAt env imageDir ignoreImages slides) := by
  intro env d ig slides order hcov
  unfold pipelineScheduled readOut
  apply List.map_congr_left
  intro i hi
  rw [fillBuf_of_mem _ _ _ (hcov i (List.mem_range.mp hi))]
  rfl

/-- A three-slide document: a text slide, a picture slide, an empty slide. -/
def demoSlides3 : List (List ShapeData) := [[demoTextShape], [demoPicShape], []]

/-- Witness for C4: slides `[0, 1, 2]` with reversed completion order
`[2, 1, 0]` still reassemble as `[slide0, slide1, slide2]`. -/
theorem C4_witness_reversed_completion :
    pipelineScheduled envOk "images" false demoSlides3 [2, 1, 0] =
      (List.range demoSlides3.length).map (slideHtmlAt envOk "images" false demoSlides3) :=
  C4_index_stable_reassembly envOk "images" false demoSlides3 [2, 1, 0] (by decide)

/-- C5. For a picture shape with materialization enabled, if decoding or
writing the bytes raises an `OSError`, `process_shape_data` returns the
visible placeholder fragment naming the 1-based slide and shape indices
(writing nothing), and processing of the remaining shapes of the slide
continues exactly as it would have: the slide's fragment is the placeholder
followed by the rest. -/
theorem C5_os_failure_yields_placeholder :
    ∀ (env : ImgEnv) (imageDir : String) (slideIndex shapeIndex : Nat)
      (s : ShapeData) (bytes : List Nat) (msg : String) (rest : List ShapeData),
      s.shape_type = MSO_SHAPE_TYPE_PICTURE →
      s.image = some bytes →
      env.save bytes = .error (.os msg) →
      processShapeData env imageDir slideIndex false shapeIndex s =
        .ok (placeholderOf slideIndex shapeIndex, []) ∧
      placeholderOf slideIndex shapeIndex =
        "<p>[Image processing failed for slide " ++ toString (slideIndex + 1) ++
          ", shape " ++ toString (shapeIndex + 1) ++ "]</p>" ∧
      processShapes env imageDir slideIndex false shapeIndex (s :: rest) =
        (match processShapes env imageDir slideIndex false (shapeIndex + 1) rest with
         | .ok hw => .ok (placeholderOf slideIndex shapeIndex ++ hw.1, hw.2)
         | .error e => .error e) := by
  intro env d si sj s bytes msg rest h1 h2 h3
  have hp : processShapeData env d si false sj s = .ok (placeholderOf si sj, []) := by
    simp [processShapeData, h1, h2, h3]
  refine ⟨hp, rfl, ?_⟩
  cases hr : processShapes env d si false (sj + 1) rest with
  | ok hw => simp [processShapes, hp, hr]
  | error e => simp [processShapes, hp, hr]

/-- Witness for C5 at a concrete failing picture (slide index 0, shape
index 1, `OSError` on decode): the placeholder names slide 1, shape 2. -/
theorem C5_witness :
    processShapeData envOsFail "images" 0 false 1 demoPicShape =
      .ok (placeholderOf 0 1, []) ∧
    placeholderOf 0 1 =
      "<p>[Image processing failed for slide " ++ toString (0 + 1) ++
        ", shape " ++ toString (1 + 1) ++ "]</p>" ∧
    processShapes envOsFail "images" 0 false 1 (demoPicShape :: [demoTextShape]) =
      (match processShapes envOsFail "images" 0 false (1 + 1) [demoTextShape] with
       | .ok hw => .ok (placeholderOf 0 1 ++ hw.1, hw.2)
       | .error e => .error e) :=
  C5_os_failure_yields_placeholder envOsFail "images" 0 1 demoPicShape
    [137, 80, 78, 71] "cannot identify image file" [demoTextShape] rfl rfl rfl

/-- C6. For a picture shape at zero-based slide index `i` and shape index
`j`, the renderer computes the deterministic filename
`slide_{i+1}_image_{j+1}.png` and emits an `<img>` whose `src` references
`images/<filename>`; with materialization disabled nothing is written but
the identical `<img>` is emitted, and with it enabled and succeeding the one
file written is that filename inside the image directory. Slide index 2,
shape index 0 gives `slide_3_image_1.png`. -/
theorem C6_deterministic_image_reference :
    ∀ (env : ImgEnv) (imageDir : String) (slideIndex shapeIndex : Nat) (s : ShapeData),
      s.shape_type = MSO_SHAPE_TYPE_PICTURE →
      processShapeData env imageDir slideIndex true shapeIndex s =
        .ok (imgTagOf s slideIndex shapeIndex, []) ∧
      (∀ (bytes png : List Nat), s.image = some bytes → env.save bytes = .ok png →
        processShapeData env imageDir slideIndex false shapeIndex s =
          .ok (imgTagOf s slideIndex shapeIndex,
               [(imageDir ++ "/" ++ imageFilenameOf slideIndex shapeIndex, png)])) ∧
      imageFilenameOf slideIndex shapeIndex =
        "slide_" ++ toString (slideIndex + 1) ++ "_image_" ++ toString (shapeIndex + 1) ++ ".png" ∧
      imgTagOf s slideIndex shapeIndex =
        "<img src=\x27images/" ++ imageFilenameOf slideIndex shapeIndex ++
          "\x27 class=\x27absolute object-contain\x27 style=\x27" ++ commonStyleOf s ++ "\x27/>" ∧
      imageFilenameOf 2 0 = "slide_3_image_1.png" := by
  intro env d si sj s h
  refine ⟨by simp [processShapeData, h], ?_, rfl, rfl, by decide⟩
  intro bytes png hb hs
  simp [processShapeData, h, hb, hs]

/-- Witness for C6: the concrete picture shape at slide index 2, shape
index 0, under both the disabled and the successful enabled paths. -/
theorem C6_witness :
    processShapeData envOk "images" 2 true 0 demoPicShape =
      .ok (imgTagOf demoPicShape 2 0, []) ∧
    (∀ (bytes png : List Nat), demoPicShape.image = some bytes →
      envOk.save bytes = .ok png →
      processShapeData envOk "images" 2 false 0 demoPicShape =
        .ok (imgTagOf demoPicShape 2 0,
             [("images" ++ "/" ++ imageFilenameOf 2 0, png)])) ∧
    imageFilenameOf 2 0 =
      "slide_" ++ toString (2 + 1) ++ "_image_" ++ toString (0 + 1) ++ ".png" ∧
    imgTagOf demoPicShape 2 0 =
      "<img src=\x27images/" ++ imageFilenameOf 2 0 ++
        "\x27 class=\x27absolute object-contain\x27 style=\x27" ++ commonStyleOf demoPicShape ++ "\x27/>" ∧
    imageFilenameOf 2 0 = "slide_3_image_1.png" :=
  C6_deterministic_image_reference envOk "images" 2 0 demoPicShape rfl

/-- The claim C7's representative run: bold/italic/colour varying over every
possible state, the other fields fixed. -/
def demoRunBIC (b i : Option Bool) (hc : Bool) : RunData :=
  { text := "Hello", font_name := some "Arial", font_size := none, bold := b,
    italic := i, color := if hc then some "#1a2b3c" else none, hyperlink := none }

/-- C7. The emitted run style contains `font-weight: bold;` iff bold is
true, `font-style: italic;` iff italic is true (a `None`/`False` flag emits
nothing and no explicit `normal` is ever emitted), and a `color`
declaration iff the run has a resolved colour: checked for every
combination of flag states on the representative run, together with the
general shape of the style string when a flag is true. In particular
`bold = True, italic = False, color = None` yields `font-weight: bold;` and
no `font-style` or `color` declaration. -/
theorem C7_conditional_flag_style :
    (∀ (b i : Option Bool) (hc : Bool),
      strContainsB (runStyle (demoRunBIC b i hc)) "font-weight: bold;" = (b == some true) ∧
      strContainsB (runStyle (demoRunBIC b i hc)) "font-style: italic;" = (i == some true) ∧
      strContainsB (runStyle (demoRunBIC b i hc)) "color:" = hc ∧
      strContainsB (runStyle (demoRunBIC b i hc)) "normal" = false) ∧
    (∀ r : RunData, r.bold = some true →
      runStyle r = "font-family: " ++ pyOptStr r.font_name ++ "; " ++
        (sizeDecl r ++ ("font-weight: bold; " ++ (italicDecl r ++ colorDecl r)))) ∧
    (∀ r : RunData, r.italic = some true →
      runStyle r = "font-family: " ++ pyOptStr r.font_name ++ "; " ++
        (sizeDecl r ++ (boldDecl r ++ ("font-style: italic; " ++ colorDecl r)))) := by
  refine ⟨by decide, ?_, ?_⟩
  · intro r h
    simp [runStyle, styleTail, boldDecl, h]
  · intro r h
    simp [runStyle, styleTail, italicDecl, h]

/-- Witness for C7's conditional parts at the concrete bold title run. -/
theorem C7_witness :
    runStyle demoRun = "font-family: " ++ pyOptStr demoRun.font_name ++ "; " ++
      (sizeDecl demoRun ++ ("font-weight: bold; " ++
        (italicDecl demoRun ++ colorDecl demoRun))) :=
  C7_conditional_flag_style.2.1 demoRun rfl

/-- A live shape whose text-frame traversal raises (malformed formatting
metadata). -/
def rawBadText : RawShape :=
  { shape_type := 17, left := 100, top := 200, width := 300, height := 400,
    has_text_frame := true,
    textFrameRaw := .error "AttributeError: malformed run formatting",
    imageBlob := none, imageExt := none, hasFill := false, fillType := none,
    foreColorRgb := none }

/-- C8. A failure while extracting one shape's text metadata does not abort
extraction: `extract_text_frame` catches the exception and substitutes the
empty paragraph list for that shape, and the surrounding per-shape list
comprehension extracts every other shape exactly as it would have. -/
theorem C8_extraction_error_isolated :
    ∀ (s : RawShape) (e : String),
      s.textFrameRaw = .error e → s.has_text_frame = true →
      (extractShapeRecord s).text_frame = some [] ∧
      ∀ (front back : List RawShape),
        extract_slide_data (front ++ s :: back) =
          extract_slide_data front ++ extractShapeRecord s :: extract_slide_data back := by
  intro s e h1 h2
  constructor
  · simp [extractShapeRecord, h2, extract_text_frame, h1]
  · intro front back
    simp [extract_slide_data]

/-- Witness for C8 at a concrete failing shape between two healthy ones. -/
theorem C8_witness :
    (extractShapeRecord rawBadText).text_frame = some [] ∧
    extract_slide_data ([rawSolid] ++ rawBadText :: [rawBackground]) =
      extract_slide_data [rawSolid] ++ extractShapeRecord rawBadText ::
        extract_slide_data [rawBackground] :=
  ⟨(C8_extraction_error_isolated rawBadText
      "AttributeError: malformed run formatting" rfl rfl).1,
   (C8_extraction_error_isolated rawBadText
      "AttributeError: malformed run formatting" rfl rfl).2 [rawSolid] [rawBackground]⟩

/-- A run with every formatting field unset. -/
def emptyRun : RunData :=
  { text := "", font_name := none, font_size := none, bold := none,
    italic := none, color := none, hyperlink := none }

/-- A run with no font name but bold set. -/
def noNameBoldRun : RunData :=
  { text := "x", font_name := none, font_size := none, bold := some true,
    italic := none, color := none, hyperlink := none }

/-- C9. The run style always starts with a `font-family` declaration, even
when the font name is absent: a `None` font name yields the literal text
`font-family: None;` (while size, bold, italic and colour are omitted when
unset — the run with every field unset produces exactly
`font-family: None; ` and nothing else). -/
theorem C9_font_family_unconditional :
    (∀ r : RunData, runStyle r =
      "font-family: " ++ pyOptStr r.font_name ++ "; " ++ styleTail r) ∧
    (∀ r : RunData, r.font_name = none →
      runStyle r = "font-family: None; " ++ styleTail r) ∧
    runStyle emptyRun = "font-family: None; " := by
  refine ⟨fun r => rfl, ?_, by decide⟩
  intro r h
  simp only [runStyle, h, pyOptStr]
  rfl

/-- Witness for C9's conditional part at a run with no font name but a bold
flag set. -/
theorem C9_witness :
    runStyle noNameBoldRun = "font-family: None; " ++ styleTail noNameBoldRun :=
  C9_font_family_unconditional.2.1 noNameBoldRun rfl

/-- C10. A picture shape that also carries a text frame renders through the
picture branch only: `process_shape_data` tests `PICTURE` before
`has_text_frame`, so the output is independent of the shape's text frame,
text-frame flag and fill colour — its paragraphs, runs and fill are never
rendered. -/
theorem C10_picture_branch_wins :
    ∀ (env : ImgEnv) (imageDir : String) (slideIndex : Nat) (ignoreImages : Bool)
      (shapeIndex : Nat) (s : ShapeData) (tf : Option (List ParagraphData))
      (htf : Bool) (fc : Option String),
      s.shape_type = MSO_SHAPE_TYPE_PICTURE →
      processShapeData env imageDir slideIndex ignoreImages shapeIndex
          { s with has_text_frame := htf, text_frame := tf, fill_color := fc } =
        processShapeData env imageDir slideIndex ignoreImages shapeIndex s := by
  intro env d si ig sj s tf htf fc h
  simp [processShapeData, h, imgTagOf, commonStyleOf]

/-- The demo picture endowed with a text frame and a fill colour. -/
def picWithText : ShapeData :=
  { demoPicShape with has_text_frame := true, text_frame := some [demoPara], fill_color := some "#112233" }

/-- Witness for C10: the demo picture endowed with a full text frame and a
fill renders identically to the bare demo picture. -/
theorem C10_witness :
    processShapeData envOk "images" 0 true 0 picWithText =
      processShapeData envOk "images" 0 true 0 demoPicShape :=
  C10_picture_branch_wins envOk "images" 0 true 0 demoPicShape
    (some [demoPara]) true (some "#112233") rfl
